import Mathlib

/-
Verification of the FSCP (Freelan Secure Channel Protocol) implementation.

This development shallowly embeds the Go sources of the `fscp` package:
  * the wire codec (`messages.go`): header writing, per-message
    serialization sizes, serializers and deserializers, `writeMessage`,
    `writeDataMessage` and `readMessage`;
  * the negotiation helpers (`CipherSuiteSlice.FindCommon`,
    `EllipticCurveSlice.FindCommon`);
  * the per-session cryptographic state (`session.go`): `SetRemote`,
    `Encrypt`, `Decrypt`, `NewSession`;
  * the per-connection dispatch logic (`conn.go`): the PRESENTATION
    and SESSION message handlers.

Bytes are modelled as natural numbers (meaningful values are < 256);
machine integers are naturals reduced modulo 2^8 / 2^16 / 2^32 exactly
where the Go code converts. External library primitives (x509 certificate
parsing, ECDHE scalar multiplication, the TLS 1.2 PRF, AES-GCM) are taken
as explicit function parameters, so every theorem quantifies over all
possible behaviours of those primitives.
-/

namespace GoFreelan

/-! ## Byte-level primitives

`binary.Write`/`binary.Read` with big-endian encoding, specialised to the
integer widths the codec uses.  `u16be`/`u32be` reduce modulo the width,
mirroring Go's integer conversions (`uint16(len)` and friends). -/

def u16be (n : Nat) : List Nat :=
  [n / 256 % 256, n % 256]

def u32be (n : Nat) : List Nat :=
  [n / 16777216 % 256, n / 65536 % 256, n / 256 % 256, n % 256]

def readU8 : List Nat → Option (Nat × List Nat)
  | [] => none
  | b :: r => some (b, r)

def readU16 : List Nat → Option (Nat × List Nat)
  | b1 :: b2 :: r => some (b1 * 256 + b2, r)
  | _ => none

def readU32 : List Nat → Option (Nat × List Nat)
  | b1 :: b2 :: b3 :: b4 :: r =>
      some (((b1 * 256 + b2) * 256 + b3) * 256 + b4, r)
  | _ => none

/-- Read exactly `n` bytes (the semantics of `io.ReadFull` used by
`binary.Read` on a `[N]byte` or `[]byte` destination): fails when fewer
than `n` bytes remain. -/
def readBytes : Nat → List Nat → Option (List Nat × List Nat)
  | 0, l => some ([], l)
  | _ + 1, [] => none
  | n + 1, b :: r =>
      match readBytes n r with
      | some (xs, rest) => some (b :: xs, rest)
      | none => none

/-! ## Message data model (`messages.go`)

`messageData` and the tagged union of all typed messages.  A certificate
is represented by its raw DER bytes (`x509.Certificate.Raw`); a `nil`
certificate pointer is `none`.  The host identifier (`[32]byte`), GCM tag
(`[16]byte`) and all slices become `List Nat`. -/

structure MessageData where
  channel : Nat
  sequenceNumber : Nat
  gcmTag : List Nat
  ciphertext : List Nat
  deriving DecidableEq, Repr

inductive Message where
  | hello (uniqueNumber : Nat)
  | presentation (certificate : Option (List Nat))
  | sessionRequest (sessionNumber : Nat) (hostIdentifier : List Nat)
      (cipherSuites : List Nat) (ellipticCurves : List Nat) (signature : List Nat)
  | session (sessionNumber : Nat) (hostIdentifier : List Nat)
      (cipherSuite : Nat) (ellipticCurve : Nat)
      (publicKey : List Nat) (signature : List Nat)
  | data (d : MessageData)
  deriving DecidableEq, Repr

/-- Locations the parser can report in an error (the `fmt.Errorf` context
strings of `messages.go`, as a closed enumeration). -/
inductive FieldName where
  | header
  | version
  | messageType
  | payloadLength
  | uniqueNumber
  | certificateLength
  | certificate
  | sessionNumber
  | hostIdentifier
  | cipherSuitesLength
  | cipherSuites
  | ellipticCurvesLength
  | ellipticCurves
  | signatureLength
  | signature
  | cipherSuite
  | ellipticCurve
  | reservedBytes
  | publicKeyLength
  | publicKey
  | sequenceNumber
  | gcmTag
  | ciphertextLength
  | ciphertext
  deriving DecidableEq, Repr

def FieldName.str : FieldName → String
  | .header => "header"
  | .version => "version"
  | .messageType => "message type"
  | .payloadLength => "payload length"
  | .uniqueNumber => "unique number"
  | .certificateLength => "certificate length"
  | .certificate => "certificate"
  | .sessionNumber => "session number"
  | .hostIdentifier => "host identifier"
  | .cipherSuitesLength => "cipher suites length"
  | .cipherSuites => "cipher suites"
  | .ellipticCurvesLength => "elliptic curves length"
  | .ellipticCurves => "elliptic curves"
  | .signatureLength => "signature length"
  | .signature => "signature"
  | .cipherSuite => "cipher suite"
  | .ellipticCurve => "elliptic curve"
  | .reservedBytes => "reserved bytes"
  | .publicKeyLength => "public key length"
  | .publicKey => "public key"
  | .sequenceNumber => "sequence number"
  | .gcmTag => "GCM tag"
  | .ciphertextLength => "ciphertext length"
  | .ciphertext => "ciphertext"

/-- Parse errors of `readHeader` / `readMessage` / the `deserialize`
methods.  Each `fmt.Errorf` site of the Go code is mapped to a
constructor carrying the data the message interpolates. -/
inductive ParseErr where
  | shortHeader (got : Nat)
  | badVersion (v : Nat)
  | shortPayload (expected got : Nat)
  | unknownType (t : Nat)
  | badField (messageKind : String) (field : FieldName)
  deriving DecidableEq, Repr

/-- The component a parse error names (the claim of §4.A that every error
is precise about what failed to decode). -/
def ParseErr.fieldName : ParseErr → String
  | .shortHeader _ => "header"
  | .badVersion _ => "version"
  | .shortPayload _ _ => "payload"
  | .unknownType _ => "message type"
  | .badField _ f => f.str

/-! ## Serialization (`serializationSize` / `serialize` methods)

These mirror the Go methods field by field.  Note that
`messageSessionRequest.serializationSize` and
`messageSession.serializationSize` count the 32-byte host identifier as
`4` bytes (the literal `4 + 4 + ...` of the source), while the
corresponding `serialize`/`serializeUnsigned` write all 32 bytes. -/

def serializationSize : Message → Nat
  | .hello _ => 4
  | .presentation none => 2
  | .presentation (some der) => 2 + der.length
  | .sessionRequest _ _ cs ec sig =>
      4 + 4 + 2 + cs.length + 2 + ec.length + 2 + sig.length
  | .session _ _ _ _ pub sig =>
      4 + 4 + 2 + 2 + 2 + pub.length + 2 + sig.length
  | .data d => 4 + 16 + 2 + d.ciphertext.length

/-- The message-specific payload bytes (the `serialize` methods; for
SESSION_REQUEST and SESSION this is `serializeUnsigned` followed by the
signature length and bytes). -/
def serialize : Message → List Nat
  | .hello u => u32be u
  | .presentation none => u16be 0
  | .presentation (some der) => u16be der.length ++ der
  | .sessionRequest sn hid cs ec sig =>
      u32be sn ++ hid ++ u16be cs.length ++ cs ++ u16be ec.length ++ ec ++
        u16be sig.length ++ sig
  | .session sn hid cip cur pub sig =>
      u32be sn ++ hid ++ [cip, cur, 0, 0] ++ u16be pub.length ++ pub ++
        u16be sig.length ++ sig
  | .data d =>
      u32be d.sequenceNumber ++ d.gcmTag ++ u16be d.ciphertext.length ++
        d.ciphertext

/-- The unsigned prefix of SESSION_REQUEST (`serializeUnsigned`): all
fields before the signature length. -/
def serializeUnsignedSessionRequest (sn : Nat) (hid cs ec : List Nat) : List Nat :=
  u32be sn ++ hid ++ u16be cs.length ++ cs ++ u16be ec.length ++ ec

/-- `writeHeader` followed by `serialize`: version byte 3, the type byte,
and the 16-bit big-endian declared payload length taken from
`serializationSize`. -/
def writeMessage (t : Nat) (m : Message) : List Nat :=
  3 :: t :: u16be (serializationSize m) ++ serialize m

/-- `writeDataMessage`: the type byte is `MessageTypeData +
MessageType(msg.Channel)`, computed in `uint8` arithmetic. -/
def writeDataMessage (d : MessageData) : List Nat :=
  writeMessage ((0x70 + d.channel) % 256) (.data d)

/-! ## Deserialization (`deserialize` methods and `readMessage`) -/

def deserializeHello (l : List Nat) : Except ParseErr Message :=
  if l.length ≠ 4 then .error (.badField "HELLO" .payloadLength)
  else
    match readU32 l with
    | some (u, _) => .ok (.hello u)
    | none => .error (.badField "HELLO" .uniqueNumber)

/-- `messagePresentation.deserialize`; `pc` models
`x509.ParseCertificate` (returning `none` on a DER parse failure). -/
def deserializePresentation (pc : List Nat → Option (List Nat)) (l : List Nat) :
    Except ParseErr Message :=
  if l.length < 2 then .error (.badField "PRESENTATION" .payloadLength)
  else
    match readU16 l with
    | none => .error (.badField "PRESENTATION" .certificateLength)
    | some (size, r) =>
      if size = 0 then .ok (.presentation none)
      else if r.length < size then .error (.badField "PRESENTATION" .payloadLength)
      else
        match readBytes size r with
        | none => .error (.badField "PRESENTATION" .certificate)
        | some (der, _) =>
          match pc der with
          | some cert => .ok (.presentation (some cert))
          | none => .error (.badField "PRESENTATION" .certificate)

def deserializeSessionRequest (l : List Nat) : Except ParseErr Message :=
  if l.length < 10 then .error (.badField "SESSION_REQUEST" .payloadLength)
  else
    match readU32 l with
    | none => .error (.badField "SESSION_REQUEST" .sessionNumber)
    | some (sn, r1) =>
      match readBytes 32 r1 with
      | none => .error (.badField "SESSION_REQUEST" .hostIdentifier)
      | some (hid, r2) =>
        match readU16 r2 with
        | none => .error (.badField "SESSION_REQUEST" .cipherSuitesLength)
        | some (csLen, r3) =>
          match readBytes csLen r3 with
          | none => .error (.badField "SESSION_REQUEST" .cipherSuites)
          | some (cs, r4) =>
            match readU16 r4 with
            | none => .error (.badField "SESSION_REQUEST" .ellipticCurvesLength)
            | some (ecLen, r5) =>
              match readBytes ecLen r5 with
              | none => .error (.badField "SESSION_REQUEST" .ellipticCurves)
              | some (ec, r6) =>
                match readU16 r6 with
                | none => .error (.badField "SESSION_REQUEST" .signatureLength)
                | some (sigLen, r7) =>
                  if sigLen = 0 then .ok (.sessionRequest sn hid cs ec [])
                  else
                    match readBytes sigLen r7 with
                    | none => .error (.badField "SESSION_REQUEST" .signature)
                    | some (sig, _) => .ok (.sessionRequest sn hid cs ec sig)

def deserializeSession (l : List Nat) : Except ParseErr Message :=
  if l.length < 16 then .error (.badField "SESSION" .payloadLength)
  else
    match readU32 l with
    | none => .error (.badField "SESSION" .sessionNumber)
    | some (sn, r1) =>
      match readBytes 32 r1 with
      | none => .error (.badField "SESSION" .hostIdentifier)
      | some (hid, r2) =>
        match readU8 r2 with
        | none => .error (.badField "SESSION" .cipherSuite)
        | some (cip, r3) =>
          match readU8 r3 with
          | none => .error (.badField "SESSION" .ellipticCurve)
          | some (cur, r4) =>
            match readBytes 2 r4 with
            | none => .error (.badField "SESSION" .reservedBytes)
            | some (_, r5) =>
              match readU16 r5 with
              | none => .error (.badField "SESSION" .publicKeyLength)
              | some (pubLen, r6) =>
                match readBytes pubLen r6 with
                | none => .error (.badField "SESSION" .publicKey)
                | some (pub, r7) =>
                  match readU16 r7 with
                  | none => .error (.badField "SESSION" .signatureLength)
                  | some (sigLen, r8) =>
                    match readBytes sigLen r8 with
                    | none => .error (.badField "SESSION" .signature)
                    | some (sig, _) => .ok (.session sn hid cip cur pub sig)

def deserializeData (channel : Nat) (l : List Nat) : Except ParseErr Message :=
  if l.length < 22 then .error (.badField "DATA" .payloadLength)
  else
    match readU32 l with
    | none => .error (.badField "DATA" .sequenceNumber)
    | some (seqn, r1) =>
      match readBytes 16 r1 with
      | none => .error (.badField "DATA" .gcmTag)
      | some (tag, r2) =>
        match readU16 r2 with
        | none => .error (.badField "DATA" .ciphertextLength)
        | some (ctLen, r3) =>
          match readBytes ctLen r3 with
          | none => .error (.badField "DATA" .ciphertext)
          | some (ct, _) => .ok (.data ⟨channel, seqn, tag, ct⟩)

/-- `readHeader`: requires at least 4 bytes, version byte 3, then yields
the type byte and the declared 16-bit payload length. -/
def readHeader : List Nat → Except ParseErr (Nat × Nat × List Nat)
  | v :: t :: s1 :: s2 :: rest =>
      if v ≠ 3 then .error (.badVersion v)
      else .ok (t, s1 * 256 + s2, rest)
  | l => .error (.shortHeader l.length)

/-- `readMessage`: parse the header, check the remaining buffer against
the declared length, then dispatch on the type byte exactly as the Go
code does — the `t & MessageTypeData == MessageTypeData` test first, the
`switch` (with its CONTACT_REQUEST / CONTACT / KEEPALIVE arm) second. -/
def readMessage (pc : List Nat → Option (List Nat)) (l : List Nat) :
    Except ParseErr (Nat × Message) :=
  match readHeader l with
  | .error e => .error e
  | .ok (t, payloadSize, rest) =>
    if rest.length < payloadSize then .error (.shortPayload payloadSize rest.length)
    else
      let res : Except ParseErr Message :=
        if t &&& 0x70 = 0x70 then deserializeData (t - 0x70) rest
        else if t = 0x00 ∨ t = 0x01 then deserializeHello rest
        else if t = 0x02 then deserializePresentation pc rest
        else if t = 0x03 then deserializeSessionRequest rest
        else if t = 0x04 then deserializeSession rest
        else if t = 0xfd ∨ t = 0xfe ∨ t = 0xff then deserializeData 0 rest
        else .error (.unknownType t)
      match res with
      | .ok m => .ok (t, m)
      | .error e => .error e

/-! ## Negotiation helpers (`security.go`)

`CipherSuiteSlice.FindCommon` and `EllipticCurveSlice.FindCommon`: two
nested `for` loops with an early `return value`, falling through to the
null value (`NullCipherSuite = 0x00`, `NullEllipticCurve = 0x00`). -/

def CipherSuiteSlice.findCommon (s others : List Nat) : Nat :=
  match s with
  | [] => 0
  | value :: rest =>
      if others.contains value then value
      else CipherSuiteSlice.findCommon rest others

def EllipticCurveSlice.findCommon (s others : List Nat) : Nat :=
  match s with
  | [] => 0
  | value :: rest =>
      if others.contains value then value
      else EllipticCurveSlice.findCommon rest others

/-- Restatement of the spec sentence for `FindCommon`, used to compare
the implementation against the specified behaviour: the first element of
the local preference list that also appears in the peer list, or the
null value. -/
def findCommonSpec (s others : List Nat) : Nat :=
  (s.find? (fun v => others.contains v)).getD 0

/-! ## Session (`session.go`)

The AEAD created by `cipher.NewGCM` is modelled as a pair of functions
(nonce and data to sealed output, nonce and data to opened plaintext);
`elliptic.Curve` values are identified by the `EllipticCurve` byte, and
ECDHE public keys by their curve and big-integer coordinates. -/

structure PubKey where
  curve : Nat
  x : Int
  y : Int
  deriving DecidableEq, Repr

structure Aead where
  aseal : List Nat → List Nat → List Nat
  sopen : List Nat → List Nat → Option (List Nat)

/-- `EllipticCurve.Curve()` returns a non-nil curve exactly for
SECP384R1 (0x02) and SECP521R1 (0x03). -/
def curveSupported (c : Nat) : Bool :=
  c = 0x02 ∨ c = 0x03

/-- `CipherSuite.BlockSize()`; `none` models the `panic` branch for an
unknown suite. -/
def blockSize : Nat → Option Nat
  | 0x00 => some 0
  | 0x01 => some 16
  | 0x02 => some 32
  | _ => none

structure Session where
  localHostIdentifier : List Nat
  remoteHostIdentifier : List Nat
  sessionNumber : Nat
  cipherSuite : Nat
  ellipticCurve : Nat
  localSequenceNumber : Nat
  remoteSequenceNumber : Nat
  publicKey : Option PubKey
  privateKey : List Nat
  remotePublicKey : Option PubKey
  localSessionKey : List Nat
  remoteSessionKey : List Nat
  localIV : List Nat
  remoteIV : List Nat
  localAEAD : Aead
  remoteAEAD : Aead

/-- The Go zero value of the `Session` struct (nil AEADs modelled by
vacuous functions; no claim exercises an AEAD before `SetRemote`). -/
def Session.empty : Session where
  localHostIdentifier := []
  remoteHostIdentifier := []
  sessionNumber := 0
  cipherSuite := 0
  ellipticCurve := 0
  localSequenceNumber := 0
  remoteSequenceNumber := 0
  publicKey := none
  privateKey := []
  remotePublicKey := none
  localSessionKey := []
  remoteSessionKey := []
  localIV := []
  remoteIV := []
  localAEAD := ⟨fun _ d => d, fun _ d => some d⟩
  remoteAEAD := ⟨fun _ d => d, fun _ d => some d⟩

/-- Outcome of a Go call that can return normally, return an error, or
panic. -/
inductive CallResult where
  | ok
  | fail (msg : String)
  | panicked
  deriving DecidableEq, Repr

/-- `NewSession`: `genKey` models `elliptic.GenerateKey` on the given
curve (fresh ECDHE keypair; its random-failure branch is not modelled).
When the curve is unsupported the Go code returns a partially
initialised session (null cipher suite and curve) together with an
error. -/
def newSession (genKey : Nat → PubKey × List Nat) (hostIdentifier : List Nat)
    (sessionNumber cipherSuite ellipticCurve : Nat) : Session × Bool :=
  if curveSupported ellipticCurve then
    let kp := genKey ellipticCurve
    ({ Session.empty with
        localHostIdentifier := hostIdentifier
        sessionNumber := sessionNumber
        cipherSuite := cipherSuite
        ellipticCurve := ellipticCurve
        publicKey := some kp.1
        privateKey := kp.2 }, false)
  else
    ({ Session.empty with
        localHostIdentifier := hostIdentifier
        sessionNumber := sessionNumber
        cipherSuite := 0
        ellipticCurve := 0 }, true)

/-- `updateIV`: overwrite bytes 8..11 with the big-endian sequence
number. -/
def updateIV (iv : List Nat) (sequenceNumber : Nat) : List Nat :=
  iv.take 8 ++ u32be sequenceNumber

/-- `Session.SetRemote`.  External primitives are parameters:
`scalarMultX` is `curve.ScalarMult(pub.X, pub.Y, priv).X.Bytes()`, `prf`
is `prf12` producing the requested number of bytes from secret, label and
seed, and `mkAEAD` is `aes.NewCipher` followed by `cipher.NewGCM`
(failing with an error message).  The function returns the updated
session together with the call outcome; as in Go, a failing first call
may leave the session partially updated, while both second-call branches
leave it untouched. -/
def Session.setRemote
    (scalarMultX : Nat → Int × Int → List Nat → List Nat)
    (prf : Nat → List Nat → String → List Nat → List Nat)
    (mkAEAD : List Nat → Except String Aead)
    (s : Session) (hostIdentifier : List Nat) (publicKey : PubKey) :
    Session × CallResult :=
  match s.remotePublicKey with
  | some rpk =>
      if rpk.curve ≠ publicKey.curve ∨ rpk.x ≠ publicKey.x ∨ rpk.y ≠ publicKey.y then
        (s, .fail "the remote public key was set previously to a different value")
      else
        (s, .ok)
  | none =>
      let s1 := { s with remoteHostIdentifier := hostIdentifier }
      let k := scalarMultX s1.ellipticCurve (publicKey.x, publicKey.y) s1.privateKey
      let s2 := { s1 with remotePublicKey := some publicKey }
      match blockSize s2.cipherSuite with
      | none => (s2, .panicked)
      | some bs =>
        let s3 := { s2 with
          localSessionKey := prf bs k "session key" s2.localHostIdentifier
          remoteSessionKey := prf bs k "session key" s2.remoteHostIdentifier }
        match mkAEAD s3.localSessionKey with
        | .error e => (s3, .fail e)
        | .ok la =>
          let s4 := { s3 with localAEAD := la }
          match mkAEAD s4.remoteSessionKey with
          | .error e => (s4, .fail e)
          | .ok ra =>
            let s5 := { s4 with
              remoteAEAD := ra
              localIV := prf 8 k "nonce prefix" s4.localHostIdentifier ++ [0, 0, 0, 0]
              remoteIV := prf 8 k "nonce prefix" s4.remoteHostIdentifier ++ [0, 0, 0, 0] }
            (s5, .ok)

/-- `Session.Encrypt`: increment the local sequence number (`uint32`),
refresh the IV suffix, seal, and split the GCM tag (last 16 bytes of the
sealed output) from the ciphertext. -/
def Session.encrypt (s : Session) (cleartext : List Nat) : Session × MessageData :=
  let seqn := (s.localSequenceNumber + 1) % 4294967296
  let iv := updateIV s.localIV seqn
  let sealed := s.localAEAD.aseal iv cleartext
  ({ s with localSequenceNumber := seqn, localIV := iv },
   { channel := 0
     sequenceNumber := seqn
     gcmTag := sealed.drop (sealed.length - 16)
     ciphertext := sealed.take (sealed.length - 16) })

/-- `Session.Decrypt`: reject sequence numbers not strictly greater than
the last accepted one, rejoin ciphertext and tag, open, and record the
sequence number only on success. -/
def Session.decrypt (s : Session) (msg : MessageData) :
    Session × Except String (List Nat) :=
  if msg.sequenceNumber ≤ s.remoteSequenceNumber then
    (s, .error "outdated message")
  else
    let combined := msg.ciphertext ++ msg.gcmTag
    let iv := updateIV s.remoteIV msg.sequenceNumber
    match s.remoteAEAD.sopen iv combined with
    | none => ({ s with remoteIV := iv }, .error "cipher: message authentication failed")
    | some data =>
        ({ s with remoteIV := iv, remoteSequenceNumber := msg.sequenceNumber },
         .ok data)

/-! ## Connection dispatch (`conn.go`)

Only the state the PRESENTATION and SESSION handlers read and write is
modelled.  Sends are recorded as events (their I/O error branches, which
close the connection, are not reachable in a pure model). -/

/-- Observable actions of a handler: messages handed to `writeMessage`
and the closing of the `connected` channel. -/
inductive OutEvent where
  | sessionRequestSent (sessionNumber : Nat)
  | sessionSent (sessionNumber : Nat)
  | connectedSignalled
  deriving DecidableEq, Repr

/-- Handler outcome: keep looping, close the connection with an error,
or panic. -/
inductive LoopOutcome where
  | looping
  | closedWith (msg : String)
  | panicked
  deriving DecidableEq, Repr

structure ConnState where
  session : Option Session
  nextSession : Option Session
  remoteHostIdentifier : Option (List Nat)
  remoteClientSecuritySet : Bool
  remoteCertificate : Option (List Nat)
  localHostIdentifier : List Nat
  securityCipherSuites : List Nat
  securityEllipticCurves : List Nat

/-- The SESSION message as this revision of the connection reads it (its
`PublicKey` field is the peer's ECDHE public key). -/
structure SessionMsgIn where
  sessionNumber : Nat
  hostIdentifier : List Nat
  cipherSuite : Nat
  ellipticCurve : Nat
  publicKey : PubKey

/-- The `messagePresentation` arm of `Conn.dispatchLoop`: on the first
PRESENTATION record the remote security material, then send a
SESSION_REQUEST whose session number is the zero value unless a pending
(next) session exists, in which case its number is used.  Later
PRESENTATION frames are ignored. -/
def handlePresentation (st : ConnState) (cert : Option (List Nat)) :
    ConnState × List OutEvent :=
  if st.remoteClientSecuritySet then
    (st, [])
  else
    let st1 := { st with
      remoteClientSecuritySet := true
      remoteCertificate := cert }
    let sessionNumber : Nat :=
      match st1.nextSession with
      | some ns => ns.sessionNumber
      | none => 0
    (st1, [.sessionRequestSent sessionNumber])

/-- The tail of the `messageSession` arm, reached when neither the
active nor the pending session matched: negotiate against the singleton
lists built from the message, create a new session, send our SESSION
message and then assign `c.session, c.nextSession = session, nil` — the
new session is installed as the ACTIVE session and the pending slot is
cleared, after which the `c.session == nil` test guarding
`close(c.connected)` can never succeed. -/
def handleSessionFallthrough (genKey : Nat → PubKey × List Nat)
    (st : ConnState) (imsg : SessionMsgIn) :
    ConnState × List OutEvent × LoopOutcome :=
  let cipherSuite := CipherSuiteSlice.findCommon st.securityCipherSuites [imsg.cipherSuite]
  let ellipticCurve :=
    EllipticCurveSlice.findCommon st.securityEllipticCurves [imsg.ellipticCurve]
  let r := newSession genKey st.localHostIdentifier imsg.sessionNumber
    cipherSuite ellipticCurve
  if r.2 then
    (st, [.sessionSent r.1.sessionNumber], .looping)
  else
    let st1 := { st with session := some r.1, nextSession := none }
    let evs := if st1.session.isNone then [OutEvent.connectedSignalled] else []
    (st1, [.sessionSent r.1.sessionNumber] ++ evs, .looping)

/-- The pending-session checks of the `messageSession` arm: a matching
pending session is completed with `SetRemote` and promoted, a newer
pending session causes the message to be ignored, anything else falls
through. -/
def handleSessionNext
    (genKey : Nat → PubKey × List Nat)
    (scalarMultX : Nat → Int × Int → List Nat → List Nat)
    (prf : Nat → List Nat → String → List Nat → List Nat)
    (mkAEAD : List Nat → Except String Aead)
    (st : ConnState) (imsg : SessionMsgIn) :
    ConnState × List OutEvent × LoopOutcome :=
  match st.nextSession with
  | some ns =>
    if ns.sessionNumber = imsg.sessionNumber then
      match st.remoteHostIdentifier with
      | none => (st, [], .panicked)
      | some rhid =>
        let r := ns.setRemote scalarMultX prf mkAEAD rhid imsg.publicKey
        match r.2 with
        | .panicked => ({ st with nextSession := some r.1 }, [], .panicked)
        | .fail e =>
            ({ st with nextSession := some r.1 }, [],
             .closedWith ("computing shared key: " ++ e))
        | .ok =>
            let evs := if st.session.isNone then [OutEvent.connectedSignalled] else []
            ({ st with session := some r.1, nextSession := none }, evs, .looping)
    else if imsg.sessionNumber < ns.sessionNumber then
      (st, [], .looping)
    else
      handleSessionFallthrough genKey st imsg
  | none =>
      handleSessionFallthrough genKey st imsg

/-- The `messageSession` arm of `Conn.dispatchLoop`.  `verified` is the
outcome of `imsg.verifySignature`; the cryptographic parameters are
those of `Session.SetRemote` and `NewSession`. -/
def handleSessionMessage
    (verified : Bool)
    (genKey : Nat → PubKey × List Nat)
    (scalarMultX : Nat → Int × Int → List Nat → List Nat)
    (prf : Nat → List Nat → String → List Nat → List Nat)
    (mkAEAD : List Nat → Except String Aead)
    (st : ConnState) (imsg : SessionMsgIn) :
    ConnState × List OutEvent × LoopOutcome :=
  if ¬verified then
    (st, [], .looping)
  else
    match st.session with
    | some s =>
      if s.sessionNumber = imsg.sessionNumber then
        (st, [], .looping)
      else if imsg.sessionNumber < s.sessionNumber then
        (st, [.sessionSent s.sessionNumber], .looping)
      else
        handleSessionNext genKey scalarMultX prf mkAEAD st imsg
    | none =>
        handleSessionNext genKey scalarMultX prf mkAEAD st imsg


/-! ## Primitive reader and writer lemmas -/

theorem readU16_u16be (n : Nat) (r : List Nat) :
    readU16 (u16be n ++ r) = some (n % 65536, r) := by
  have h : n / 256 % 256 * 256 + n % 256 = n % 65536 := by omega
  simp [u16be, readU16, h]

theorem readU32_u32be (n : Nat) (r : List Nat) :
    readU32 (u32be n ++ r) = some (n % 4294967296, r) := by
  have h : ((n / 16777216 % 256 * 256 + n / 65536 % 256) * 256 + n / 256 % 256) * 256
      + n % 256 = n % 4294967296 := by omega
  simp [u32be, readU32, h]

theorem readBytes_append (l r : List Nat) :
    readBytes l.length (l ++ r) = some (l, r) := by
  induction l with
  | nil => simp [readBytes]
  | cons b xs ih => simp [readBytes, ih]

theorem readBytes_append_of_eq {k : Nat} (l r : List Nat) (h : l.length = k) :
    readBytes k (l ++ r) = some (l, r) := by
  subst h; exact readBytes_append l r

theorem u16be_length (n : Nat) : (u16be n).length = 2 := rfl

theorem u32be_length (n : Nat) : (u32be n).length = 4 := rfl

example : readU16 (u16be 49 ++ [7]) = some (49, [7]) := by decide
example : readU32 (u32be 0x22446688 ++ []) = some (0x22446688, []) := by decide

/-! ## Wire test vectors (sanity checks against `messages_test.go`) -/

example : writeMessage 0x00 (.hello 0x12345678) =
    [0x03, 0x00, 0x00, 0x04, 0x12, 0x34, 0x56, 0x78] := by decide

example : writeMessage 0x01 (.hello 0x12345678) =
    [0x03, 0x01, 0x00, 0x04, 0x12, 0x34, 0x56, 0x78] := by decide

example : writeMessage 0x02 (.presentation none) =
    [0x03, 0x02, 0x00, 0x02, 0x00, 0x00] := by decide

/-! ## Header lemma -/

theorem readHeader_writeMessage (t : Nat) (m : Message) :
    readHeader (writeMessage t m) =
      .ok (t, serializationSize m % 65536, serialize m) := by
  have h : serializationSize m / 256 % 256 * 256 + serializationSize m % 256 =
      serializationSize m % 65536 := by omega
  simp [writeMessage, u16be, readHeader, h]

/-- The number of bytes the `serialize` methods actually write. -/
def actualPayloadSize : Message → Nat
  | .hello _ => 4
  | .presentation none => 2
  | .presentation (some der) => 2 + der.length
  | .sessionRequest _ hid cs ec sig =>
      4 + hid.length + 2 + cs.length + 2 + ec.length + 2 + sig.length
  | .session _ hid _ _ pub sig =>
      4 + hid.length + 4 + 2 + pub.length + 2 + sig.length
  | .data d => 4 + d.gcmTag.length + 2 + d.ciphertext.length

theorem serialize_length (m : Message) :
    (serialize m).length = actualPayloadSize m := by
  cases m with
  | hello u => rfl
  | presentation c =>
      cases c <;> simp [serialize, actualPayloadSize, u16be] <;> omega
  | sessionRequest sn hid cs ec sig =>
      simp [serialize, actualPayloadSize, u16be, u32be]; omega
  | session sn hid cip cur pub sig =>
      simp [serialize, actualPayloadSize, u16be, u32be]; omega
  | data d => simp [serialize, actualPayloadSize, u16be, u32be]; omega

theorem readU32_u32be_nil (n : Nat) :
    readU32 (u32be n) = some (n % 4294967296, []) := by
  simpa using readU32_u32be n []

/-! ## Round-trip lemmas, one per message kind -/

theorem readMessage_hello (pc : List Nat → Option (List Nat)) (t u : Nat)
    (ht : t = 0 ∨ t = 1) (hu : u < 4294967296) :
    readMessage pc (writeMessage t (.hello u)) = .ok (t, .hello u) := by
  rcases ht with rfl | rfl <;>
    · simp [readMessage, readHeader_writeMessage, serialize, serializationSize,
        deserializeHello, readU32, u32be, Nat.mod_eq_of_lt hu]
      omega

theorem readBytes_self (l : List Nat) : readBytes l.length l = some (l, []) := by
  simpa using readBytes_append l []

/-- Reduction of `readMessage` on `writeMessage` output: the header
always parses back, and the declared-length guard passes whenever the
written payload is at least as long as the (truncated) declared size. -/
theorem readMessage_writeMessage (pc : List Nat → Option (List Nat)) (t : Nat)
    (m : Message) (h : serializationSize m % 65536 ≤ (serialize m).length) :
    readMessage pc (writeMessage t m) =
      match
        (if t &&& 112 = 112 then deserializeData (t - 112) (serialize m)
         else if t = 0 ∨ t = 1 then deserializeHello (serialize m)
         else if t = 2 then deserializePresentation pc (serialize m)
         else if t = 3 then deserializeSessionRequest (serialize m)
         else if t = 4 then deserializeSession (serialize m)
         else if t = 253 ∨ t = 254 ∨ t = 255 then deserializeData 0 (serialize m)
         else .error (.unknownType t)) with
      | .ok msg => .ok (t, msg)
      | .error e => .error e := by
  simp only [readMessage, readHeader_writeMessage]
  rw [if_neg (Nat.not_lt.mpr h)]

theorem deserializePresentation_serialize (pc : List Nat → Option (List Nat))
    (der : List Nat) (hne : der ≠ []) (hlen : der.length < 65536)
    (hpc : pc der = some der) :
    deserializePresentation pc (serialize (.presentation (some der))) =
      .ok (.presentation (some der)) := by
  have hd : der.length % 65536 = der.length := Nat.mod_eq_of_lt hlen
  have hz : der.length ≠ 0 := fun h0 => hne (List.eq_nil_of_length_eq_zero h0)
  simp [serialize, deserializePresentation, readU16_u16be, hd, hz,
    readBytes_self, hpc, u16be_length]

theorem readBytes_two (a b : Nat) (r : List Nat) :
    readBytes 2 (a :: b :: r) = some ([a, b], r) := rfl

theorem readU16_u16be_nil (n : Nat) :
    readU16 (u16be n) = some (n % 65536, []) := by
  simpa using readU16_u16be n []

theorem deserializeSessionRequest_serialize (sn : Nat) (hid cs ec sig : List Nat)
    (hsn : sn < 4294967296) (hhid : hid.length = 32)
    (hcs : cs.length < 65536) (hec : ec.length < 65536) (hsig : sig.length < 65536) :
    deserializeSessionRequest (serialize (.sessionRequest sn hid cs ec sig)) =
      .ok (.sessionRequest sn hid cs ec sig) := by
  have h1 : sn % 4294967296 = sn := Nat.mod_eq_of_lt hsn
  have h2 : cs.length % 65536 = cs.length := Nat.mod_eq_of_lt hcs
  have h3 : ec.length % 65536 = ec.length := Nat.mod_eq_of_lt hec
  have h4 : sig.length % 65536 = sig.length := Nat.mod_eq_of_lt hsig
  by_cases hs : sig = []
  · subst hs
    simp [serialize, deserializeSessionRequest, readU32_u32be, readU16_u16be,
      readU16_u16be_nil, readBytes_append, readBytes_append_of_eq, hhid, h1, h2, h3,
      u32be_length, u16be_length, readBytes_self]
    omega
  · have hs0 : sig.length ≠ 0 := by
      simpa [List.length_eq_zero] using hs
    simp [serialize, deserializeSessionRequest, readU32_u32be, readU16_u16be,
      readBytes_append, readBytes_append_of_eq, hhid, h1, h2, h3, h4, hs0,
      u32be_length, u16be_length, readBytes_self]
    omega

theorem deserializeSession_serialize (sn cip cur : Nat) (hid pub sig : List Nat)
    (hsn : sn < 4294967296) (hhid : hid.length = 32)
    (hpub : pub.length < 65536) (hsig : sig.length < 65536) :
    deserializeSession (serialize (.session sn hid cip cur pub sig)) =
      .ok (.session sn hid cip cur pub sig) := by
  have h1 : sn % 4294967296 = sn := Nat.mod_eq_of_lt hsn
  have h2 : pub.length % 65536 = pub.length := Nat.mod_eq_of_lt hpub
  have h3 : sig.length % 65536 = sig.length := Nat.mod_eq_of_lt hsig
  simp [serialize, deserializeSession, readU32_u32be, readU16_u16be,
    readBytes_append, readBytes_append_of_eq, hhid, h1, h2, h3,
    u32be_length, u16be_length, readBytes_self, readBytes_two, readU8]
  omega

theorem deserializeData_serialize (c : Nat) (d : MessageData)
    (hsn : d.sequenceNumber < 4294967296) (htag : d.gcmTag.length = 16)
    (hct : d.ciphertext.length < 65536) :
    deserializeData c (serialize (.data d)) =
      .ok (.data { d with channel := c }) := by
  have h1 : d.sequenceNumber % 4294967296 = d.sequenceNumber :=
    Nat.mod_eq_of_lt hsn
  have h2 : d.ciphertext.length % 65536 = d.ciphertext.length :=
    Nat.mod_eq_of_lt hct
  simp [serialize, deserializeData, readU32_u32be, readU16_u16be,
    readBytes_append, readBytes_append_of_eq, htag, h1, h2,
    u32be_length, u16be_length, readBytes_self]
  omega

/-! ## Full round-trips through `readMessage` -/

theorem size_le_presentation (c : Option (List Nat)) :
    serializationSize (.presentation c) % 65536 ≤
      (serialize (.presentation c)).length := by
  cases c <;>
    simp [serializationSize, serialize_length, actualPayloadSize] <;>
    exact Nat.mod_le _ _

theorem readMessage_presentation (pc : List Nat → Option (List Nat))
    (c : Option (List Nat))
    (hc : ∀ der, c = some der → der ≠ [] ∧ der.length < 65536 ∧ pc der = some der) :
    readMessage pc (writeMessage 2 (.presentation c)) = .ok (2, .presentation c) := by
  rw [readMessage_writeMessage pc 2 (.presentation c) (size_le_presentation c)]
  cases c with
  | none =>
      simp [deserializePresentation, serialize, readU16_u16be_nil, u16be_length]
  | some der =>
      obtain ⟨h1, h2, h3⟩ := hc der rfl
      simp [deserializePresentation_serialize pc der h1 h2 h3]

theorem readMessage_sessionRequest (pc : List Nat → Option (List Nat))
    (sn : Nat) (hid cs ec sig : List Nat)
    (hsn : sn < 4294967296) (hhid : hid.length = 32)
    (hcs : cs.length < 65536) (hec : ec.length < 65536) (hsig : sig.length < 65536) :
    readMessage pc (writeMessage 3 (.sessionRequest sn hid cs ec sig)) =
      .ok (3, .sessionRequest sn hid cs ec sig) := by
  have hle : serializationSize (.sessionRequest sn hid cs ec sig) % 65536 ≤
      (serialize (.sessionRequest sn hid cs ec sig)).length := by
    have := Nat.mod_le (serializationSize (.sessionRequest sn hid cs ec sig)) 65536
    simp only [serializationSize, serialize_length, actualPayloadSize] at this ⊢
    omega
  rw [readMessage_writeMessage pc 3 _ hle]
  simp [deserializeSessionRequest_serialize sn hid cs ec sig hsn hhid hcs hec hsig]

theorem readMessage_session (pc : List Nat → Option (List Nat))
    (sn cip cur : Nat) (hid pub sig : List Nat)
    (hsn : sn < 4294967296) (hhid : hid.length = 32)
    (hpub : pub.length < 65536) (hsig : sig.length < 65536) :
    readMessage pc (writeMessage 4 (.session sn hid cip cur pub sig)) =
      .ok (4, .session sn hid cip cur pub sig) := by
  have hle : serializationSize (.session sn hid cip cur pub sig) % 65536 ≤
      (serialize (.session sn hid cip cur pub sig)).length := by
    have := Nat.mod_le (serializationSize (.session sn hid cip cur pub sig)) 65536
    simp only [serializationSize, serialize_length, actualPayloadSize] at this ⊢
    omega
  rw [readMessage_writeMessage pc 4 _ hle]
  simp [deserializeSession_serialize sn cip cur hid pub sig hsn hhid hpub hsig]

theorem readMessage_writeDataMessage (pc : List Nat → Option (List Nat))
    (d : MessageData) (hc : d.channel < 16 ∨ 128 ≤ d.channel)
    (hcmax : d.channel ≤ 140) (hsn : d.sequenceNumber < 4294967296)
    (htag : d.gcmTag.length = 16) (hct : d.ciphertext.length < 65536) :
    readMessage pc (writeDataMessage d) = .ok (112 + d.channel, .data d) := by
  have hband : ∀ x, x < 141 → (x < 16 ∨ 128 ≤ x) → (112 + x) &&& 112 = 112 := by
    decide
  have ht : (112 + d.channel) % 256 = 112 + d.channel :=
    Nat.mod_eq_of_lt (by omega)
  have hle : serializationSize (.data d) % 65536 ≤ (serialize (.data d)).length := by
    have := Nat.mod_le (serializationSize (.data d)) 65536
    simp only [serializationSize, serialize_length, actualPayloadSize] at this ⊢
    omega
  have hself : { d with channel := 112 + d.channel - 112 } = d := by
    cases d; simp
  rw [writeDataMessage, ht, readMessage_writeMessage pc _ _ hle]
  rw [if_pos (hband d.channel (by omega) hc)]
  rw [deserializeData_serialize (112 + d.channel - 112) d hsn htag hct, hself]

/-! ## Legality of a typed message

The invariants the Go type system and the x509 library guarantee for any
value the code can actually serialize: the type byte matches the message
kind, fixed-size arrays have their sizes, machine integers are in range,
slice lengths fit the 16-bit length fields, and a present certificate is
one the certificate parser reproduces from its raw bytes. -/

def LegalTyped (pc : List Nat → Option (List Nat)) (t : Nat) : Message → Prop
  | .hello u => (t = 0 ∨ t = 1) ∧ u < 4294967296
  | .presentation none => t = 2
  | .presentation (some der) =>
      t = 2 ∧ der ≠ [] ∧ der.length < 65536 ∧ pc der = some der
  | .sessionRequest sn hid cs ec sig =>
      t = 3 ∧ sn < 4294967296 ∧ hid.length = 32 ∧ cs.length < 65536 ∧
        ec.length < 65536 ∧ sig.length < 65536
  | .session sn hid _ _ pub sig =>
      t = 4 ∧ sn < 4294967296 ∧ hid.length = 32 ∧ pub.length < 65536 ∧
        sig.length < 65536
  | .data d =>
      t = (112 + d.channel) % 256 ∧ d.channel ≤ 140 ∧
        d.sequenceNumber < 4294967296 ∧ d.gcmTag.length = 16 ∧
        d.ciphertext.length < 65536

/-- C2 (counterexample).  DATA on channel `0x10` serializes with type
byte `0x70 + 0x10 = 0x80`, which fails the parser's
`t & 0x70 == 0x70` test and is not in the type `switch`, so parsing the
serialization returns an unknown-type error instead of the message: the
claimed round-trip fails inside the claimed channel range `[0, 0x8C]`. -/
theorem c2_roundtrip_counterexample :
    readMessage (fun der => some der)
      (writeDataMessage
        ⟨16, 1, [0, 0, 0, 0, 0, 0, 0, 0, 0, 0, 0, 0, 0, 0, 0, 0], []⟩) =
      .error (.unknownType 128) := rfl

/-- C2 (amended).  For every legal typed message, parsing the
serialization returns exactly the type and message — except in the DATA
family, where this holds exactly for channels `c < 0x10` and
`0x80 ≤ c ≤ 0x8C`; for `c ∈ [0x10, 0x7F]` the round-trip fails (see the
counterexample).  `writeDataMessage d` is definitionally
`writeMessage ((0x70 + d.channel) % 256) (.data d)`, so the statement
covers both entry points. -/
theorem c2_roundtrip_amended (pc : List Nat → Option (List Nat)) (t : Nat)
    (m : Message) (h : LegalTyped pc t m)
    (hch : ∀ d, m = .data d → d.channel < 16 ∨ 128 ≤ d.channel) :
    readMessage pc (writeMessage t m) = .ok (t, m) := by
  cases m with
  | hello u =>
      exact readMessage_hello pc t u h.1 h.2
  | presentation c =>
      cases c with
      | none =>
          have ht : t = 2 := h
          subst ht
          exact readMessage_presentation pc none (by intro der hder; cases hder)
      | some der =>
          obtain ⟨ht, h1, h2, h3⟩ := h
          subst ht
          exact readMessage_presentation pc (some der)
            (by intro d hd; cases hd; exact ⟨h1, h2, h3⟩)
  | sessionRequest sn hid cs ec sig =>
      obtain ⟨ht, hsn, hhid, hcs, hec, hsig⟩ := h
      subst ht
      exact readMessage_sessionRequest pc sn hid cs ec sig hsn hhid hcs hec hsig
  | session sn hid cip cur pub sig =>
      obtain ⟨ht, hsn, hhid, hpub, hsig⟩ := h
      subst ht
      exact readMessage_session pc sn cip cur hid pub sig hsn hhid hpub hsig
  | data d =>
      obtain ⟨ht, hmax, hsn, htag, hct⟩ := h
      subst ht
      have hmod : (112 + d.channel) % 256 = 112 + d.channel :=
        Nat.mod_eq_of_lt (by omega)
      have := readMessage_writeDataMessage pc d (hch d rfl) hmax hsn htag hct
      rw [writeDataMessage, hmod] at this
      rw [hmod, this]

/-- C2 (witness for the amended round-trip): DATA on channel 2, the
concrete message of the repository's serialization test. -/
theorem c2_roundtrip_amended_witness :
    readMessage (fun der => some der)
      (writeMessage 114
        (.data ⟨2, 0x22446688,
          [1, 2, 3, 4, 5, 6, 7, 8, 1, 2, 3, 4, 5, 6, 7, 8], [0xaa, 0xbb]⟩)) =
      .ok (114, .data ⟨2, 0x22446688,
        [1, 2, 3, 4, 5, 6, 7, 8, 1, 2, 3, 4, 5, 6, 7, 8], [0xaa, 0xbb]⟩) :=
  c2_roundtrip_amended (fun der => some der) 114
    (.data ⟨2, 0x22446688,
      [1, 2, 3, 4, 5, 6, 7, 8, 1, 2, 3, 4, 5, 6, 7, 8], [0xaa, 0xbb]⟩)
    ⟨rfl, by decide, by decide, rfl, by decide⟩
    (fun d hd => by cases hd; exact Or.inl (by decide))

/-- The SESSION_REQUEST of scenario S3: session number `0x22446688`,
host identifier `01 02 03 04` followed by 28 zero bytes, cipher suites
`01 02`, elliptic curves `01 02 03`, signature `aa bb`. -/
def s3Message : Message :=
  .sessionRequest 0x22446688 ([1, 2, 3, 4] ++ List.replicate 28 0)
    [1, 2] [1, 2, 3] [0xaa, 0xbb]

/-- C1 (evaluation at the failing input).  For the S3 SESSION_REQUEST
the payload that follows the header is 49 = 0x31 bytes long, but
`serializationSize` — which `writeHeader` copies into the 16-bit
declared length — returns 21 = 0x15, because it counts the 32-byte host
identifier as 4 bytes.  The emitted datagram therefore begins
`03 03 00 15`, not `03 03 00 31` as the specification and the
repository's own serialization test require. -/
theorem c1_declared_length_mismatch :
    serializationSize s3Message = 0x15 ∧
    (serialize s3Message).length = 0x31 ∧
    List.take 4 (writeMessage 3 s3Message) = [0x03, 0x03, 0x00, 0x15] := by
  refine ⟨rfl, by decide, by decide⟩

/-- Every parse error names the component that failed to decode. -/
theorem fieldName_nonempty (e : ParseErr) : e.fieldName ≠ "" := by
  cases e with
  | badField mk f => cases f <;> simp [ParseErr.fieldName, FieldName.str]
  | shortHeader g => simp [ParseErr.fieldName]
  | badVersion v => simp [ParseErr.fieldName]
  | shortPayload a b => simp [ParseErr.fieldName]
  | unknownType t => simp [ParseErr.fieldName]

/-- C3.  `readMessage` is a total function of the input bytes (the
embedding mirrors every branch of the Go parser, whose primitive reads
all return errors rather than panicking), and on every input it either
returns a typed message or an error that names the component whose
decoding failed. -/
theorem c3_parse_total_and_names_field (pc : List Nat → Option (List Nat))
    (d : List Nat) :
    (∃ r, readMessage pc d = .ok r) ∨
      (∃ e, readMessage pc d = .error e ∧ e.fieldName ≠ "") := by
  cases h : readMessage pc d with
  | ok r => exact Or.inl ⟨r, rfl⟩
  | error e => exact Or.inr ⟨e, rfl, fieldName_nonempty e⟩

/-- C5 (evaluation at the failing input).  Datagrams typed
CONTACT_REQUEST (0xfd), CONTACT (0xfe) and KEEPALIVE (0xff) all satisfy
the parser's `t & 0x70 == 0x70` test, so they are handled by the DATA
branch with channel `t - 0x70` — 0x8d, 0x8e and 0x8f respectively, not
channel 0; the dedicated `switch` cases that would assign channel 0 are
unreachable.  The payload layout is the DATA layout, as claimed. -/
theorem c5_contact_keepalive_channels :
    readMessage (fun der => some der)
        ([3, 0xfd, 0, 22] ++ (u32be 1 ++ List.replicate 16 0 ++ u16be 0)) =
      .ok (0xfd, .data ⟨0x8d, 1, List.replicate 16 0, []⟩) ∧
    readMessage (fun der => some der)
        ([3, 0xfe, 0, 22] ++ (u32be 1 ++ List.replicate 16 0 ++ u16be 0)) =
      .ok (0xfe, .data ⟨0x8e, 1, List.replicate 16 0, []⟩) ∧
    readMessage (fun der => some der)
        ([3, 0xff, 0, 22] ++ (u32be 1 ++ List.replicate 16 0 ++ u16be 0)) =
      .ok (0xff, .data ⟨0x8f, 1, List.replicate 16 0, []⟩) :=
  ⟨rfl, rfl, rfl⟩

/-! ## Session-layer lemmas and claims -/

theorem updateIV_updateIV (iv : List Nat) (h : 8 ≤ iv.length) (n m : Nat) :
    updateIV (updateIV iv n) m = updateIV iv m := by
  have h8 : (iv.take 8).length = 8 := by
    simp [List.length_take]
    omega
  simp only [updateIV]
  rw [List.take_append_of_le_length (by rw [h8]), List.take_take]
  simp

/-- C4.  On one session, (a) the sequence numbers of two consecutive
`Encrypt` calls differ by exactly one (in `uint32` arithmetic, and the
message carries the post-increment counter); (b) `Decrypt` of a message
whose sequence number equals the last accepted one fails as outdated and
leaves the counter unchanged; (c) a successful `Decrypt` implies the
sequence number was strictly greater than the last accepted one, and the
counter is updated to it. -/
theorem c4_sequence_number_discipline :
    (∀ (s : Session) (c1 c2 : List Nat),
      (s.encrypt c1).2.sequenceNumber = (s.localSequenceNumber + 1) % 4294967296 ∧
      ((s.encrypt c1).1.encrypt c2).2.sequenceNumber =
        ((s.encrypt c1).2.sequenceNumber + 1) % 4294967296) ∧
    (∀ (s : Session) (msg : MessageData),
      msg.sequenceNumber = s.remoteSequenceNumber →
        (s.decrypt msg).2.isOk = false ∧
        (s.decrypt msg).1.remoteSequenceNumber = s.remoteSequenceNumber) ∧
    (∀ (s : Session) (msg : MessageData) (out : List Nat),
      (s.decrypt msg).2 = .ok out →
        s.remoteSequenceNumber < msg.sequenceNumber ∧
        (s.decrypt msg).1.remoteSequenceNumber = msg.sequenceNumber) := by
  refine ⟨fun s c1 c2 => ⟨rfl, rfl⟩, fun s msg h => ?_, fun s msg out h => ?_⟩
  · have hle : msg.sequenceNumber ≤ s.remoteSequenceNumber := le_of_eq h
    simp [Session.decrypt, hle, Except.isOk, Except.toBool]
  · by_cases hle : msg.sequenceNumber ≤ s.remoteSequenceNumber
    · simp [Session.decrypt, hle] at h
    · refine ⟨by omega, ?_⟩
      simp only [Session.decrypt, if_neg hle] at h ⊢
      cases hopen : s.remoteAEAD.sopen (updateIV s.remoteIV msg.sequenceNumber)
          (msg.ciphertext ++ msg.gcmTag) with
      | none => rw [hopen] at h; simp at h
      | some dataBytes => rfl

/-- C4 witness: on a concrete session whose last accepted remote
sequence number is 5, a message with sequence number 5 is rejected and
the counter is unchanged. -/
theorem c4_sequence_number_discipline_witness :
    (({ Session.empty with remoteSequenceNumber := 5 } : Session).decrypt
        ⟨0, 5, [], []⟩).2.isOk = false :=
  (c4_sequence_number_discipline.2.1
    { Session.empty with remoteSequenceNumber := 5 } ⟨0, 5, [], []⟩ rfl).1

/-- C10.  When `Decrypt` fails — outdated sequence number or AEAD
failure — the last accepted remote sequence number is unchanged, and a
later message with a strictly greater sequence number that the AEAD
accepts still decrypts on the post-failure session state. -/
theorem c10_decrypt_failure_preserves_remote_seq
    (s : Session) (msg : MessageData) (hiv : 8 ≤ s.remoteIV.length)
    (hfail : (s.decrypt msg).2.isOk = false) :
    (s.decrypt msg).1.remoteSequenceNumber = s.remoteSequenceNumber ∧
    (∀ (msg2 : MessageData) (pt : List Nat),
      s.remoteSequenceNumber < msg2.sequenceNumber →
      s.remoteAEAD.sopen (updateIV s.remoteIV msg2.sequenceNumber)
          (msg2.ciphertext ++ msg2.gcmTag) = some pt →
      ((s.decrypt msg).1.decrypt msg2).2 = .ok pt) := by
  by_cases hle : msg.sequenceNumber ≤ s.remoteSequenceNumber
  · refine ⟨by simp [Session.decrypt, hle], fun msg2 pt h2 hopen => ?_⟩
    simp [Session.decrypt, hle, Nat.not_le.mpr h2, hopen]
  · simp only [Session.decrypt, if_neg hle] at hfail ⊢
    cases hopen : s.remoteAEAD.sopen (updateIV s.remoteIV msg.sequenceNumber)
        (msg.ciphertext ++ msg.gcmTag) with
    | some dataBytes =>
        rw [hopen] at hfail
        simp [Except.isOk, Except.toBool] at hfail
    | none =>
        refine ⟨rfl, fun msg2 pt h2 hopen2 => ?_⟩
        simp [Session.decrypt, Nat.not_le.mpr h2,
          updateIV_updateIV s.remoteIV hiv, hopen2]

/-- C10 witness: a concrete failed decrypt (outdated message) leaves the
last accepted remote sequence number at 5. -/
theorem c10_decrypt_failure_preserves_remote_seq_witness :
    (({ Session.empty with
          remoteSequenceNumber := 5
          remoteIV := List.replicate 12 0 } : Session).decrypt
      ⟨0, 5, [], []⟩).1.remoteSequenceNumber = 5 :=
  (c10_decrypt_failure_preserves_remote_seq
    { Session.empty with
        remoteSequenceNumber := 5
        remoteIV := List.replicate 12 0 }
    ⟨0, 5, [], []⟩ (by simp) rfl).1

/-- C8.  `SetRemote` pins the remote public key on the first call
(whatever the later derivation steps do), and once a remote public key
is pinned: a repeated call with the identical key returns success with
the session completely unchanged, while a call with a different key
returns an error with the session completely unchanged. -/
theorem c8_setRemote_at_most_once
    (scalarMultX : Nat → Int × Int → List Nat → List Nat)
    (prf : Nat → List Nat → String → List Nat → List Nat)
    (mkAEAD : List Nat → Except String Aead) :
    (∀ (s : Session) (hid : List Nat) (pk : PubKey),
      s.remotePublicKey = none →
      (s.setRemote scalarMultX prf mkAEAD hid pk).1.remotePublicKey = some pk) ∧
    (∀ (s : Session) (hid : List Nat) (rpk pk : PubKey),
      s.remotePublicKey = some rpk → pk = rpk →
      s.setRemote scalarMultX prf mkAEAD hid pk = (s, .ok)) ∧
    (∀ (s : Session) (hid : List Nat) (rpk pk : PubKey),
      s.remotePublicKey = some rpk → pk ≠ rpk →
      s.setRemote scalarMultX prf mkAEAD hid pk =
        (s, .fail "the remote public key was set previously to a different value")) := by
  refine ⟨fun s hid pk hnone => ?_, fun s hid rpk pk hsome heq => ?_,
    fun s hid rpk pk hsome hne => ?_⟩
  · simp only [Session.setRemote, hnone]
    cases blockSize s.cipherSuite with
    | none => rfl
    | some bs =>
        dsimp only
        cases mkAEAD (prf bs
            (scalarMultX s.ellipticCurve (pk.x, pk.y) s.privateKey)
            "session key" s.localHostIdentifier) with
        | error e => rfl
        | ok la =>
            dsimp only
            cases mkAEAD (prf bs
                (scalarMultX s.ellipticCurve (pk.x, pk.y) s.privateKey)
                "session key" hid) with
            | error e => rfl
            | ok ra => rfl
  · subst heq
    simp [Session.setRemote, hsome]
  · have hd : rpk.curve ≠ pk.curve ∨ rpk.x ≠ pk.x ∨ rpk.y ≠ pk.y := by
      by_contra hc
      push_neg at hc
      exact hne (by cases rpk; cases pk; simp_all)
    simp [Session.setRemote, hsome, if_pos hd]

/-- C8 witness: with a pinned remote key, an identical repeat succeeds
without changing the session, and a different key is rejected. -/
theorem c8_setRemote_at_most_once_witness :
    ({ Session.empty with remotePublicKey := some ⟨2, 1, 2⟩ } : Session).setRemote
        (fun _ _ _ => []) (fun _ _ _ _ => []) (fun _ => .error "no AEAD")
        [] ⟨2, 1, 2⟩ =
      ({ Session.empty with remotePublicKey := some ⟨2, 1, 2⟩ }, .ok) ∧
    ({ Session.empty with remotePublicKey := some ⟨2, 1, 2⟩ } : Session).setRemote
        (fun _ _ _ => []) (fun _ _ _ _ => []) (fun _ => .error "no AEAD")
        [] ⟨2, 1, 3⟩ =
      ({ Session.empty with remotePublicKey := some ⟨2, 1, 2⟩ },
        .fail "the remote public key was set previously to a different value") :=
  ⟨(c8_setRemote_at_most_once (fun _ _ _ => []) (fun _ _ _ _ => [])
      (fun _ => .error "no AEAD")).2.1
    { Session.empty with remotePublicKey := some ⟨2, 1, 2⟩ } [] ⟨2, 1, 2⟩ ⟨2, 1, 2⟩
    rfl rfl,
   (c8_setRemote_at_most_once (fun _ _ _ => []) (fun _ _ _ _ => [])
      (fun _ => .error "no AEAD")).2.2
    { Session.empty with remotePublicKey := some ⟨2, 1, 2⟩ } [] ⟨2, 1, 2⟩ ⟨2, 1, 3⟩
    rfl (by decide)⟩

/-- C9.  Both `FindCommon` methods return the first element of the
local preference list that also appears in the peer list, and the null
value (0) when none is shared; the operation is not commutative, as the
pair `[1, 2]` / `[2, 1]` shows in both directions for both methods. -/
theorem c9_findCommon_first_common_and_noncommutative :
    (∀ (l o : List Nat), CipherSuiteSlice.findCommon l o = findCommonSpec l o) ∧
    (∀ (l o : List Nat), EllipticCurveSlice.findCommon l o = findCommonSpec l o) ∧
    CipherSuiteSlice.findCommon [1, 2] [2, 1] = 1 ∧
    CipherSuiteSlice.findCommon [2, 1] [1, 2] = 2 ∧
    CipherSuiteSlice.findCommon [1, 2] [2, 1] ≠
      CipherSuiteSlice.findCommon [2, 1] [1, 2] ∧
    EllipticCurveSlice.findCommon [1, 2] [2, 1] ≠
      EllipticCurveSlice.findCommon [2, 1] [1, 2] := by
  have hc : ∀ (l o : List Nat),
      CipherSuiteSlice.findCommon l o = findCommonSpec l o := by
    intro l o
    induction l with
    | nil => rfl
    | cons v rest ih =>
        by_cases h : v ∈ o <;>
          simp [CipherSuiteSlice.findCommon, findCommonSpec, List.find?_cons, h, ih]
  have he : ∀ (l o : List Nat),
      EllipticCurveSlice.findCommon l o = findCommonSpec l o := by
    intro l o
    induction l with
    | nil => rfl
    | cons v rest ih =>
        by_cases h : v ∈ o <;>
          simp [EllipticCurveSlice.findCommon, findCommonSpec, List.find?_cons, h, ih]
  exact ⟨hc, he, by decide, by decide, by decide, by decide⟩

/-- C7.  A first PRESENTATION (no remote security material recorded
yet) triggers exactly one SESSION_REQUEST; its session number is the
`SessionNumber` zero value 0 when no pending (next) session exists, and
the pending session's number otherwise. -/
theorem c7_first_presentation_sends_session_request
    (st : ConnState) (cert : Option (List Nat))
    (hfirst : st.remoteClientSecuritySet = false) :
    (st.nextSession = none →
      (handlePresentation st cert).2 = [.sessionRequestSent 0]) ∧
    (∀ ns, st.nextSession = some ns →
      (handlePresentation st cert).2 = [.sessionRequestSent ns.sessionNumber]) := by
  constructor
  · intro hn
    simp [handlePresentation, hfirst, hn]
  · intro ns hn
    simp [handlePresentation, hfirst, hn]

/-- C7 witness: on a fresh connection state (no remote security, no
pending session) a PRESENTATION without certificate triggers
SESSION_REQUEST with session number 0. -/
theorem c7_first_presentation_sends_session_request_witness :
    (handlePresentation ⟨none, none, none, false, none, [], [], []⟩ none).2 =
      [.sessionRequestSent 0] :=
  (c7_first_presentation_sends_session_request
    ⟨none, none, none, false, none, [], [], []⟩ none rfl).1 rfl

/-- A connection state about to process a verified SESSION message that
matches neither an active nor a pending session: no sessions at all, the
remote host identifier pinned, cipher suites `[1, 2]` and curves
`[2, 3]` configured. -/
def c6InitialState : ConnState :=
  ⟨none, none, some (List.replicate 32 2), true, none,
    List.replicate 32 1, [1, 2], [2, 3]⟩

/-- The received SESSION message: session number 1, cipher suite 1,
curve SECP384R1 (2), with the peer's ECDHE public key. -/
def c6SessionMsg : SessionMsgIn :=
  ⟨1, List.replicate 32 2, 1, 2, ⟨2, 3, 4⟩⟩

/-- The handler outcome on that state and message (concrete ECDHE
keypair generator and crypto primitives). -/
def c6Result : ConnState × List OutEvent × LoopOutcome :=
  handleSessionMessage true (fun _ => (⟨2, 9, 9⟩, [7])) (fun _ _ _ => [])
    (fun _ _ _ _ => []) (fun _ => .ok ⟨fun _ d => d, fun _ d => some d⟩)
    c6InitialState c6SessionMsg

/-- C6 (evaluation at the failing input).  On a verified SESSION
message matching neither the active nor the pending session, the
handler creates a new session with the received session number and
sends its own SESSION message — but it then executes
`c.session, c.nextSession = session, nil`: the new (unkeyed) session is
installed as the ACTIVE session and the pending slot is cleared, the
active session is not left unchanged, and the `connected` signal is
never emitted (the `c.session == nil` check that guards it runs after
the assignment and can never succeed). -/
theorem c6_new_session_installed_as_active_not_pending :
    c6Result.1.session.map Session.sessionNumber = some 1 ∧
    c6Result.1.nextSession = none ∧
    c6Result.2.1 = [.sessionSent 1] ∧
    c6Result.2.2 = .looping :=
  ⟨rfl, rfl, rfl, rfl⟩

end GoFreelan
